import Mathlib

/-!
Verification of the `sangreal_database` repository
(`src/sangreal_db/core/database.py`, class `DataBase`) against its
natural-language specification.

The development is a shallow embedding of the Python source:

* the dialect-specific bulk-insert compiler (`DataBase.insert`, lines
  133-178 of the source) is embedded as pure functions returning
  `Except PyError`, with a `Statement` record standing for the
  SQLAlchemy insert statement handed to `session.execute`;
* the attribute facade (`__init__`, `__getattribute__`, `__getattr__`,
  `_reflect_table`, `reflect`) is embedded as a fuel-indexed state
  transformer over an explicit attribute dictionary (`DBState`), with
  Python object identity of automap classes modelled by a freshness
  counter (every `automap_base(...).prepare()` run creates new class
  objects, so two runs never yield identical handles).

Python exceptions are modelled by the `PyError` type; an exhausted fuel
models the interpreter's recursion limit (`RecursionError`).
-/

/-! ## Association-list dictionaries

Python attribute dictionaries (`setattr` / `getattr`) are modelled as
insertion-ordered association lists: `setA` updates in place or appends,
`lookupA` finds the unique binding. -/

def lookupA {α β : Type} [DecidableEq α] : List (α × β) → α → Option β
  | [], _ => none
  | (k, v) :: rest, k' => if k = k' then some v else lookupA rest k'

def setA {α β : Type} [DecidableEq α] : List (α × β) → α → β → List (α × β)
  | [], k, v => [(k, v)]
  | (k', v') :: rest, k, v =>
      if k' = k then (k, v) :: rest else (k', v') :: setA rest k v

/-! ## Python error model

`PyError` collects the exception outcomes of the embedded code paths:
`ValueError`, `sqlalchemy.exc.InvalidRequestError`, `AttributeError`,
`IndexError`, the `UnboundLocalError` of a local variable read before
assignment, and `RecursionError` for exhausted interpreter stack. -/

inductive PyError where
  | valueError (msg : String)
  | invalidRequestError
  | attributeError (msg : String)
  | indexError
  | unboundLocal (var : String)
  | recursionError
  deriving DecidableEq, Repr

deriving instance DecidableEq for Except

/-- Python's `str.lower()` (on the ASCII names used by the catalog),
character by character on the string's character list. -/
def pyLower (s : String) : String := ⟨s.data.map Char.toLower⟩

/-- Python's `str.upper()`, character by character. -/
def pyUpper (s : String) : String := ⟨s.data.map Char.toUpper⟩

/-! ## The dialect upsert compiler (`DataBase.insert`)

`table.__table__` of the mapped class carries the table name, its
indexes (each with a `unique` flag) and its constraints; this is the
`TableDesc` record.  A bulk-insert row (`dict` of column to value) is a
`Record`; the `insert_obj` argument is either a `pandas.DataFrame`, a
Python `list` of records, or something else entirely (`InsertObj.other`
keeps the `reprlib.repr` of the offending object for the error
message). -/

structure IndexDesc where
  name : String
  unique : Bool
  deriving DecidableEq, Repr

structure ConstraintDesc where
  name : String
  deriving DecidableEq, Repr

structure TableDesc where
  name : String
  indexes : List IndexDesc
  constraints : List ConstraintDesc
  deriving DecidableEq, Repr

abbrev Record := List (String × String)

inductive InsertObj where
  | dataFrame (rows : List Record)
  | pyList (rows : List Record)
  | other (objRepr : String)
  deriving DecidableEq, Repr

/-- The statement handed to `session.execute`:
`table.__table__.insert().prefix_with(ignore_str).values(insert_obj)`.
`prefix_with` appends one prefix fragment to the statement's prefix
list, so the submitted statement carries exactly the prefixes listed in
`prefixes` (dialects needing no fragment pass the empty string). -/
structure Statement where
  prefixes : List String
  table : String
  values : List Record
  deriving DecidableEq, Repr

/-- Source loop `for i in table.__table__.indexes: if i.unique: index = i.name; break`. -/
def findUniqueIndex : List IndexDesc → Option String
  | [] => none
  | i :: rest => if i.unique then some i.name else findUniqueIndex rest

/-- Source lines 152-158: empty-`DataFrame` rejection, `DataFrame`
conversion to records, and rejection of any non-list input. -/
def validateInsertObj : InsertObj → Except PyError (List Record)
  | .dataFrame rows =>
      if rows.isEmpty then
        .error (.valueError "The input DataFrame is empty, please check!")
      else .ok rows
  | .pyList rows => .ok rows
  | .other objRepr =>
      .error (.valueError ("The " ++ objRepr ++ " must be list of dicts type!"))

/-- The message of the `ValueError` raised for `ignore=True` on `mssql`
(source lines 174-176). -/
def mssqlIgnoreMsg : String :=
  "You can set 'IGNORE_DUP_KEY = ON' while create the table and set the paramenter 'ignore=False'."

/-- Source lines 159-176: the dialect dispatch computing the local
variable `ignore_str`.  The final `else` case does not exist in the
source: a dialect other than mysql/sqlite/oracle/mssql leaves
`ignore_str` unassigned, and the later read at line 178 raises Python's
`UnboundLocalError`. -/
def ignore_str (dialect : String) (table : TableDesc) (ignore : Bool)
    (index : Option String) : Except PyError String :=
  if dialect = "mysql" then .ok (if ignore then "IGNORE" else "")
  else if dialect = "sqlite" then .ok (if ignore then "OR REPLACE" else "")
  else if dialect = "oracle" then
    if ignore then
      match (match index with
             | some s => Except.ok s
             | none =>
               match findUniqueIndex table.indexes with
               | some s => Except.ok s
               | none =>
                 match table.constraints with
                 | c :: _ => Except.ok c.name
                 | [] => Except.error PyError.indexError) with
      | .ok idx =>
          .ok ("/*+ IGNORE_ROW_ON_DUPKEY_INDEX (" ++ table.name ++ ", " ++ idx ++ ") */")
      | .error e => .error e
    else .ok ""
  else if dialect = "mssql" then
    if ignore then .error (.valueError mssqlIgnoreMsg) else .ok ""
  else .error (.unboundLocal "ignore_str")

/-- Model of `DataBase.insert` (source lines 133-178): validate `insert_obj`,
compute the dialect fragment, and submit
`table.__table__.insert().prefix_with(ignore_str).values(insert_obj)`
to the session.  An `.error` result means the corresponding Python
exception was raised before `session.execute` was reached. -/
def DataBase.insert (dialect : String) (table : TableDesc)
    (insert_obj : InsertObj) (ignore : Bool) (index : Option String) :
    Except PyError Statement :=
  match validateInsertObj insert_obj with
  | .error e => .error e
  | .ok rows =>
    match ignore_str dialect table ignore index with
    | .error e => .error e
    | .ok s => .ok { prefixes := [s], table := table.name, values := rows }

/-! ## The reflection facade

`DBTable`/`Database` describe the live database visible to
introspection: each table has a name, a column list and a primary-key
flag (`automap_base(...).prepare()` only maps tables that have a
primary key, which is what makes `Base.classes[table_name]` raise
`KeyError` for PK-less tables). -/

structure DBTable where
  name : String
  columns : List String
  hasPK : Bool
  deriving DecidableEq, Repr

structure Database where
  tables : List DBTable
  deriving DecidableEq, Repr

/-- Case-sensitive single-table lookup: `metadata.reflect(only=[n])`
succeeds exactly when the database has a table of that exact name. -/
def dbFind (db : Database) (n : String) : Option DBTable :=
  db.tables.find? (fun t => t.name == n)

/-- The catalog listing, `Inspector.from_engine(bind).get_table_names(schema)`. -/
def dbNames (db : Database) : List String := db.tables.map DBTable.name

/-! ### Row handles (automap classes)

A `Handle` is one mapped class produced by one `automap_base` run.
`hid` models Python object identity: every `automap_base(...).prepare()`
creates brand-new class objects, so handles from distinct runs carry
distinct `hid`s and are never the identical object.  `attrs` is the
class attribute dictionary restricted to its `InstrumentedAttribute`
column accessors, mapping an accessor name to the identity (`Nat`) of
the underlying column object; `props` is the mutable state of those
column objects, keyed by column identity, so that a write through one
accessor is visible through every accessor sharing the identity. -/

structure Handle where
  hid : Nat
  tname : String
  attrs : List (String × Nat)
  props : List (Nat × String)
  deriving DecidableEq, Repr

/-- The freshly auto-mapped class has one accessor per column, each
bound to its own column object (identity = position). -/
def initAttrsFrom (i : Nat) : List String → List (String × Nat)
  | [] => []
  | c :: rest => (c, i) :: initAttrsFrom (i + 1) rest

def initAttrs (cols : List String) : List (String × Nat) := initAttrsFrom 0 cols

/-- Source lines 84-90: `column_list = tuple(table.__dict__.keys())`,
then for each column `c = getattr(table, column)` followed by
`setattr(table, column.upper(), c)` and `setattr(table, column.lower(), c)`.
The `getattr` happens at loop time, so an alias written by an earlier
iteration is what a later iteration reads back. -/
def aliasLoop : List String → List (String × Nat) → List (String × Nat)
  | [], attrs => attrs
  | c :: rest, attrs =>
      match lookupA attrs c with
      | some cid => aliasLoop rest (setA (setA attrs (pyUpper c) cid) (pyLower c) cid)
      | none => aliasLoop rest attrs

/-- A class as produced by a bare `automap_base(...).prepare()` run
(used by whole-schema `reflect`, source lines 97-104): no case aliases
are registered for columns. -/
def Handle.mkAutomap (hid : Nat) (t : DBTable) : Handle :=
  { hid := hid, tname := t.name, attrs := initAttrs t.columns, props := [] }

/-- A class as produced by `_reflect_table` (source lines 78-91): the
automap class with upper/lower column aliases added by `aliasLoop`. -/
def Handle.mkLazy (hid : Nat) (t : DBTable) : Handle :=
  { hid := hid, tname := t.name, attrs := aliasLoop t.columns (initAttrs t.columns),
    props := [] }

/-- Model of `getattr(handle, a)` followed by a read of the column object's
mutable state (`none` = never written). -/
def Handle.getColAttr (h : Handle) (a : String) : Except PyError (Option String) :=
  match lookupA h.attrs a with
  | some cid => .ok (lookupA h.props cid)
  | none =>
      .error (.attributeError ("type object " ++ h.tname ++ " has no attribute " ++ a))

/-- A mutation performed through the accessor `a`: write `v` into the
underlying column object reached through `a`. -/
def Handle.setColAttr (h : Handle) (a v : String) : Except PyError Handle :=
  match lookupA h.attrs a with
  | some cid => .ok { h with props := setA h.props cid v }
  | none =>
      .error (.attributeError ("type object " ++ h.tname ++ " has no attribute " ++ a))

/-! ### Error messages -/

/-- Python `repr` of a string. -/
def pyStrRepr (s : String) : String := "'" ++ s ++ "'"

/-- Model of `reprlib.repr` on a list of strings: a truncated
representative sample (at most 6 elements, then an ellipsis). -/
def reprlibRepr (ts : List String) : String :=
  "[" ++ String.intercalate ", " ((ts.take 6).map pyStrRepr) ++
    (if ts.length > 6 then ", ...]" else "]")

/-- The `AttributeError` message of `__getattr__` (source lines 60-63). -/
def notRightMsg (name tablesRepr : String) : String :=
  "<" ++ name ++ "> is not the right table name, such as " ++ tablesRepr ++ "."

/-- The `ValueError` message of `_reflect_table` for the `KeyError`
path (source lines 92-95). -/
def pkErrMsg (name tablesRepr : String) : String :=
  "There must be a primary key in " ++ name ++ "! or <" ++ name ++
    "> is not the right table name, such as " ++ tablesRepr ++ "."

/-! ### Instance state -/

/-- A value stored in the instance attribute dictionary.  `placeholder`
is the string `'None'` pre-registered for every catalog table slot;
`tablesList` is `self.tables`; `bindVal`/`schemaVal`/`metadataVal`/
`baseVal`/`sessionVal` are `self._bind`, `self._schema`,
`self._metadata`, `self.Base`, `self._session`; `methodVal` is a bound
method found on the class; `handle` is a resolved mapped class. -/
inductive Value where
  | placeholder
  | handle (h : Handle)
  | tablesList (ts : List String)
  | bindVal
  | schemaVal (s : Option String)
  | metadataVal
  | baseVal
  | sessionVal
  | methodVal (name : String)
  deriving DecidableEq, Repr

/-- What `reprlib.repr` renders for each attribute value (only the
`tablesList` case is observable through the claims). -/
def valueRepr : Value → String
  | .placeholder => pyStrRepr "None"
  | .handle h => "<class " ++ h.tname ++ ">"
  | .tablesList ts => reprlibRepr ts
  | .bindVal => "<engine>"
  | .schemaVal _ => "<schema>"
  | .metadataVal => "<metadata>"
  | .baseVal => "<base>"
  | .sessionVal => "<session>"
  | .methodVal n => "<bound method " ++ n ++ ">"

/-- The mutable state of one `DataBase` instance: its attribute
dictionary, the set of table names reflected into `self._metadata`,
and the freshness counter supplying object identities for classes
created by `automap_base(...).prepare()` runs. -/
structure DBState where
  dict : List (String × Value)
  metadata : List String
  counter : Nat
  deriving DecidableEq, Repr

/-- The plain methods defined on the `DataBase` class (found by
attribute lookup after the instance dictionary misses). -/
def classMethods : List String :=
  ["inject", "_reflect_table", "reflect", "_get_tables", "query", "update",
   "insert", "delete", "close", "merge", "commit", "flush", "rollback",
   "refresh", "create_all"]

/-- Model of `metadata.reflect(only=[n])` recording the table in the metadata. -/
def addName (l : List String) (n : String) : List String :=
  if n ∈ l then l else l ++ [n]

def unionNames : List String → List String → List String
  | acc, [] => acc
  | acc, n :: rest => unionNames (addName acc n) rest

def setSlot (st : DBState) (name : String) (h : Handle) : DBState :=
  { st with dict := setA st.dict name (.handle h) }

/-- Source lines 37-41: pre-register every catalog table name and its
lower/upper variants as unresolved (`'None'`) slots. -/
def slotLoop : List String → List (String × Value) → List (String × Value)
  | [], d => d
  | t :: rest, d =>
      slotLoop rest
        (setA (setA (setA d t .placeholder) (pyLower t) .placeholder) (pyUpper t) .placeholder)

/-- Model of `DataBase.__init__` (source lines 24-41).  `bindIsNone = true`
models `DataBase(None)`: the constructor returns immediately and the
instance dictionary stays empty.  Otherwise the literal schema value
`'None'` is normalised to `None`, the session/metadata attributes are
set, the catalog is listed, and every table slot is pre-registered. -/
def DataBase.init (db : Database) (bindIsNone : Bool) (schema : Option String) : DBState :=
  if bindIsNone then { dict := [], metadata := [], counter := 0 }
  else
    let schema1 := if schema = some "None" then none else schema
    let ts := dbNames db
    let d0 : List (String × Value) :=
      setA (setA (setA (setA (setA (setA [] "_bind" .bindVal)
        "_schema" (.schemaVal schema1)) "_metadata" .metadataVal)
        "Base" .baseVal) "_session" .sessionVal) "tables" (.tablesList ts)
    { dict := slotLoop ts d0, metadata := [], counter := 0 }

/-- Model of `_reflect_table` (source lines 78-95) against a given `self.tables`
reader (`tablesFetch`, a full attribute read of `"tables"` used by the
error message): reflect the single table case-sensitively
(`InvalidRequestError` on a miss, leaving the state untouched), re-run
`automap_base(...).prepare()` (consuming one fresh class identity and
recording the table in the metadata), and either return the freshly
mapped class with column case aliases, or — when the table lacks a
primary key, so `Base.classes[tn]` raises `KeyError` — raise the
`ValueError` whose message embeds `reprlib.repr(self.tables)`. -/
def reflect_table (db : Database) (tablesFetch : DBState → Except PyError Value × DBState)
    (st : DBState) (tn : String) : Except PyError Handle × DBState :=
  match dbFind db tn with
  | none => (.error .invalidRequestError, st)
  | some t =>
    let st1 : DBState :=
      { st with metadata := addName st.metadata tn, counter := st.counter + 1 }
    if t.hasPK then (.ok (Handle.mkLazy st.counter t), st1)
    else
      match tablesFetch st1 with
      | (.ok v, st2) => (.error (.valueError (pkErrMsg tn (valueRepr v))), st2)
      | (.error e, st2) => (.error e, st2)

/-- The `try/except InvalidRequestError` ladder of `__getattribute__`
(source lines 49-57): `_reflect_table` on the exact name, retried with
the lower-cased then the upper-cased name; success stores the handle
under the accessed spelling only; any other exception propagates and
leaves the slot unresolved. -/
def resolveChain (db : Database) (tablesFetch : DBState → Except PyError Value × DBState)
    (st : DBState) (name : String) : Except PyError Value × DBState :=
  match reflect_table db tablesFetch st name with
  | (.ok h, st1) => (.ok (.handle h), setSlot st1 name h)
  | (.error .invalidRequestError, st1) =>
    match reflect_table db tablesFetch st1 (pyLower name) with
    | (.ok h, st2) => (.ok (.handle h), setSlot st2 name h)
    | (.error .invalidRequestError, st2) =>
      (match reflect_table db tablesFetch st2 (pyUpper name) with
       | (.ok h, st3) => (.ok (.handle h), setSlot st3 name h)
       | (.error e, st3) => (.error e, st3))
    | (.error e, st2) => (.error e, st2)
  | (.error e, st1) => (.error e, st1)

/-- Model of `__getattr__` (source lines 60-63): raise the `AttributeError`
whose message embeds `reprlib.repr(self.tables)` — reading
`self.tables` through the full attribute machinery. -/
def getattrFallback (tablesFetch : DBState → Except PyError Value × DBState)
    (st : DBState) (name : String) : Except PyError Value × DBState :=
  match tablesFetch st with
  | (.ok v, st1) => (.error (.attributeError (notRightMsg name (valueRepr v))), st1)
  | (.error e, st1) => (.error e, st1)

/-- Model of `DataBase.__getattribute__` / `__getattr__` (source lines 47-63)
as one fuel-indexed attribute read; fuel 0 is Python's exhausted
recursion limit (`RecursionError`).

For an attribute read of `name`:
* `bind`/`schema` are class properties (data descriptors, consulted
  before the instance dictionary); their getters read `self._bind` /
  `self._schema` through the full attribute machinery, and an
  `AttributeError` escaping the getter falls back to `__getattr__`;
* an unresolved (`'None'`) slot triggers the `_reflect_table` retry
  ladder (`resolveChain`);
* a missing name resolves to a class method if one matches, and
  otherwise raises `__getattr__`'s `AttributeError`, whose message
  itself reads `self.tables` through the attribute machinery — on an
  unbound instance that read recurses into `__getattr__` again, so the
  fuel runs out. -/
def pyGetAttr (db : Database) : Nat → DBState → String → Except PyError Value × DBState
  | 0, st, _ => (.error .recursionError, st)
  | fuel + 1, st, name =>
    if name = "bind" ∨ name = "schema" then
      match pyGetAttr db fuel st ("_" ++ name) with
      | (.ok v, st1) => (.ok v, st1)
      | (.error (.attributeError _), st1) =>
          getattrFallback (fun s => pyGetAttr db fuel s "tables") st1 name
      | (.error e, st1) => (.error e, st1)
    else
      match lookupA st.dict name with
      | some .placeholder => resolveChain db (fun s => pyGetAttr db fuel s "tables") st name
      | some v => (.ok v, st)
      | none =>
        if name ∈ classMethods then (.ok (.methodVal name), st)
        else getattrFallback (fun s => pyGetAttr db fuel s "tables") st name

/-- The per-class body of `DataBase.reflect`'s loop (source lines
101-104): every auto-mapped (primary-keyed) table's fresh class is
stored under its name and both case variants — the same object under
all three — with no column aliasing. -/
def reflectLoop : List DBTable → DBState → DBState
  | [], st => st
  | t :: rest, st =>
    if t.hasPK then
      let h := Handle.mkAutomap st.counter t
      reflectLoop rest
        { st with
          counter := st.counter + 1
          dict := setA (setA (setA st.dict t.name (.handle h)) (pyLower t.name) (.handle h))
            (pyUpper t.name) (.handle h) }
    else reflectLoop rest st

/-- Model of `DataBase.reflect` (source lines 97-104): whole-schema
`metadata.reflect()`, then a fresh `automap_base(...).prepare()` run,
then the storing loop. -/
def DataBase.reflect (db : Database) (st : DBState) : DBState :=
  reflectLoop db.tables { st with metadata := unionNames st.metadata (dbNames db) }

/-! ## Derived keys, alias sets and concrete bindings used by the theorems -/

/-- The dictionary key an attribute read of `name` is ultimately served
from: the class properties `bind`/`schema` read the underscore-prefixed
instance attribute, every other name reads its own slot. -/
def propKey (name : String) : String :=
  if name = "bind" ∨ name = "schema" then "_" ++ name else name

/-- The three accessor spellings registered for a column (or pre-registered
for a table slot): as-is, upper-cased, lower-cased. -/
def aliasSet (c : String) : List String := [c, pyUpper c, pyLower c]

/-- No spelling of `a` collides with any spelling of `b`. -/
def disjointAliases (a b : String) : Bool :=
  (aliasSet a).all (fun x => !((aliasSet b).contains x))

/-- Pairwise alias-disjointness of a column list: the realistic
well-formedness condition (no two columns of one table share a
case-folded spelling). -/
def colsOKb : List String → Bool
  | [] => true
  | c :: rest => rest.all (disjointAliases c) && colsOKb rest

/-- A one-table database with a lower-case primary-keyed table, the
running concrete example. -/
def usersDB : Database := ⟨[⟨"users", ["id"], true⟩]⟩

def usersInit : DBState := DataBase.init usersDB false none

/-- First facade access, through the exact spelling `users`. -/
def usersAccess1 : Except PyError Value × DBState := pyGetAttr usersDB 2 usersInit "users"

/-- Second facade access, through the upper-case alias `USERS`, started
from the state the first access produced. -/
def usersAccess2 : Except PyError Value × DBState :=
  pyGetAttr usersDB 2 usersAccess1.2 "USERS"

/-- A one-table database whose table reflects but has no primary key. -/
def nopkDB : Database := ⟨[⟨"nopk", ["a"], false⟩]⟩

/-- The no-primary-key binding after a whole-schema `reflect()`. -/
def nopkReflected : DBState := DataBase.reflect nopkDB (DataBase.init nopkDB false none)

/-! ## Theorems -/

/-- C2 (confirmed): for `insert` with ignore=true, the mysql dialect
prefixes the statement with the `IGNORE` keyword exactly once (the
prefix list of the submitted statement is exactly `["IGNORE"]`), sqlite
with `OR REPLACE`, and oracle with an `IGNORE_ROW_ON_DUPKEY_INDEX` hint
whose index is the explicit index name if provided, else the name of
the table's first unique index, else the name of the table's first
constraint. -/
theorem insert_ignore_fragments
    (t1 t2 t3 : TableDesc) (rows : List Record) (ix iu : String)
    (c0 : ConstraintDesc) (cs : List ConstraintDesc)
    (h2 : findUniqueIndex t2.indexes = some iu)
    (h3 : findUniqueIndex t3.indexes = none)
    (h3c : t3.constraints = c0 :: cs) :
    DataBase.insert "mysql" t1 (.pyList rows) true none =
      .ok { prefixes := ["IGNORE"], table := t1.name, values := rows }
    ∧ DataBase.insert "sqlite" t1 (.pyList rows) true none =
      .ok { prefixes := ["OR REPLACE"], table := t1.name, values := rows }
    ∧ DataBase.insert "oracle" t1 (.pyList rows) true (some ix) =
      .ok { prefixes := ["/*+ IGNORE_ROW_ON_DUPKEY_INDEX (" ++ t1.name ++ ", " ++ ix ++ ") */"],
            table := t1.name, values := rows }
    ∧ DataBase.insert "oracle" t2 (.pyList rows) true none =
      .ok { prefixes := ["/*+ IGNORE_ROW_ON_DUPKEY_INDEX (" ++ t2.name ++ ", " ++ iu ++ ") */"],
            table := t2.name, values := rows }
    ∧ DataBase.insert "oracle" t3 (.pyList rows) true none =
      .ok { prefixes := ["/*+ IGNORE_ROW_ON_DUPKEY_INDEX (" ++ t3.name ++ ", " ++ c0.name ++ ") */"],
            table := t3.name, values := rows } := by
  refine ⟨?_, ?_, ?_, ?_, ?_⟩ <;>
    simp [DataBase.insert, validateInsertObj, ignore_str, h2, h3, h3c]

/-- Witness for C2 at concrete tables: `t2` has unique index
`uq_users`, `t3` has no unique index and first constraint `pk_t3`. -/
theorem insert_ignore_fragments_witness :
    DataBase.insert "mysql" ⟨"users", [], []⟩ (.pyList [[("id", "1")]]) true none =
      .ok { prefixes := ["IGNORE"], table := "users", values := [[("id", "1")]] }
    ∧ DataBase.insert "oracle" ⟨"t2", [⟨"uq_users", true⟩], []⟩ (.pyList [[("id", "1")]]) true none =
      .ok { prefixes := ["/*+ IGNORE_ROW_ON_DUPKEY_INDEX (" ++ "t2" ++ ", " ++ "uq_users" ++ ") */"],
            table := "t2", values := [[("id", "1")]] }
    ∧ DataBase.insert "oracle" ⟨"t3", [⟨"ix_plain", false⟩], [⟨"pk_t3"⟩]⟩ (.pyList [[("id", "1")]]) true none =
      .ok { prefixes := ["/*+ IGNORE_ROW_ON_DUPKEY_INDEX (" ++ "t3" ++ ", " ++ "pk_t3" ++ ") */"],
            table := "t3", values := [[("id", "1")]] } := by
  have h := insert_ignore_fragments ⟨"users", [], []⟩ ⟨"t2", [⟨"uq_users", true⟩], []⟩
    ⟨"t3", [⟨"ix_plain", false⟩], [⟨"pk_t3"⟩]⟩ [[("id", "1")]] "ix" "uq_users" ⟨"pk_t3"⟩ []
    (by decide) (by decide) rfl
  exact ⟨h.1, h.2.2.2.1, h.2.2.2.2⟩

/-- C3 (code_bug): the source has no `else` branch for dialects other
than mysql/sqlite/oracle/mssql, so the local `ignore_str` is never
assigned and line 178 raises `UnboundLocalError` for BOTH values of the
ignore flag — the statement is never submitted, contradicting the
spec's pass-through row of the policy table. -/
theorem insert_unknown_dialect_unbound_local (dialect : String) (t : TableDesc)
    (rows : List Record) (ignore : Bool) (index : Option String)
    (h1 : dialect ≠ "mysql") (h2 : dialect ≠ "sqlite") (h3 : dialect ≠ "oracle")
    (h4 : dialect ≠ "mssql") :
    DataBase.insert dialect t (.pyList rows) ignore index =
      .error (.unboundLocal "ignore_str") := by
  simp [DataBase.insert, validateInsertObj, ignore_str, h1, h2, h3, h4]

/-- Witness for C3: a postgresql insert with ignore=false crashes with
the unbound-local error instead of passing through with no fragment. -/
theorem insert_unknown_dialect_unbound_local_witness :
    DataBase.insert "postgresql" ⟨"users", [], []⟩ (.pyList [[("id", "1")]]) false none =
      .error (.unboundLocal "ignore_str") :=
  insert_unknown_dialect_unbound_local "postgresql" ⟨"users", [], []⟩ [[("id", "1")]]
    false none (by decide) (by decide) (by decide) (by decide)

/-- C4 (confirmed): on the mssql dialect, `insert` with ignore=true
raises the `ValueError` standing for `UnsupportedIgnoreMode` (the
statement is never submitted to the session: the result is `.error`,
not a `Statement`), and with ignore=false the statement is executed
with the empty fragment. -/
theorem insert_mssql_ignore (t : TableDesc) (rows : List Record) (index : Option String) :
    DataBase.insert "mssql" t (.pyList rows) true index =
      .error (.valueError mssqlIgnoreMsg)
    ∧ DataBase.insert "mssql" t (.pyList rows) false index =
        .ok { prefixes := [""], table := t.name, values := rows } := by
  constructor <;> simp [DataBase.insert, validateInsertObj, ignore_str]

/-- C10 counterexample: with `insert_obj = []` on mssql with
ignore=true, validation succeeds (no validation error), yet no
zero-row statement is ever submitted to the session — the call dies in
the fragment stage — refuting the claim's universal "an insert
statement with zero rows is submitted". -/
theorem insert_empty_list_counterexample :
    validateInsertObj (.pyList []) = .ok []
    ∧ DataBase.insert "mssql" ⟨"users", [], []⟩ (.pyList []) true none =
        .error (.valueError mssqlIgnoreMsg) := by
  exact ⟨rfl, rfl⟩

/-- C10 (corrected): the empty list always passes validation — only an
empty tabular (`DataFrame`) input is rejected by validation — and
whenever the dialect fragment stage succeeds, a statement with zero
rows is submitted to the session. -/
theorem insert_empty_list_ok (dialect : String) (t : TableDesc) (ignore : Bool)
    (index : Option String) (s : String)
    (h : ignore_str dialect t ignore index = .ok s) :
    validateInsertObj (.pyList []) = .ok []
    ∧ DataBase.insert dialect t (.pyList []) ignore index =
        .ok { prefixes := [s], table := t.name, values := [] }
    ∧ DataBase.insert dialect t (.dataFrame []) ignore index =
        .error (.valueError "The input DataFrame is empty, please check!") := by
  refine ⟨rfl, ?_, ?_⟩
  · simp [DataBase.insert, validateInsertObj, h]
  · simp [DataBase.insert, validateInsertObj]

/-- Witness for C10 on mysql: the zero-row statement is submitted with
the `IGNORE` fragment while the empty DataFrame is rejected. -/
theorem insert_empty_list_ok_witness :
    DataBase.insert "mysql" ⟨"users", [], []⟩ (.pyList []) true none =
      .ok { prefixes := ["IGNORE"], table := "users", values := [] }
    ∧ DataBase.insert "mysql" ⟨"users", [], []⟩ (.dataFrame []) true none =
      .error (.valueError "The input DataFrame is empty, please check!") := by
  have h := insert_empty_list_ok "mysql" ⟨"users", [], []⟩ true none "IGNORE" rfl
  exact ⟨h.2.1, h.2.2⟩

/-! ### Dictionary lemmas -/

theorem lookupA_setA_self {α β : Type} [DecidableEq α]
    (m : List (α × β)) (k : α) (v : β) : lookupA (setA m k v) k = some v := by
  induction m with
  | nil => simp [setA, lookupA]
  | cons hd tl ih =>
      obtain ⟨k', v'⟩ := hd
      by_cases h : k' = k
      · simp [setA, h, lookupA]
      · simp [setA, h, lookupA, ih]

theorem lookupA_setA_ne {α β : Type} [DecidableEq α]
    (m : List (α × β)) (k k' : α) (v : β) (h : k ≠ k') :
    lookupA (setA m k v) k' = lookupA m k' := by
  induction m with
  | nil => simp [setA, lookupA, h]
  | cons hd tl ih =>
      obtain ⟨k₀, v₀⟩ := hd
      by_cases hk : k₀ = k
      · subst hk; simp [setA, lookupA, h]
      · simp [setA, hk, lookupA, ih]

theorem lookupA_setA {α β : Type} [DecidableEq α] (m : List (α × β)) (k k' : α) (v : β) :
    lookupA (setA m k v) k' = if k = k' then some v else lookupA m k' := by
  by_cases h : k = k'
  · subst h; simp [lookupA_setA_self]
  · simp [h, lookupA_setA_ne m k k' v h]

/-! ### Inversion lemmas for the attribute machinery -/

theorem getattrFallback_no_ok (tf : DBState → Except PyError Value × DBState)
    (st st' : DBState) (name : String) (v : Value)
    (h : getattrFallback tf st name = (.ok v, st')) : False := by
  unfold getattrFallback at h
  split at h <;> simp_all

theorem resolveChain_ok (db : Database) (tf : DBState → Except PyError Value × DBState)
    (st st' : DBState) (name : String) (v : Value)
    (h : resolveChain db tf st name = (.ok v, st')) :
    ∃ hh, v = .handle hh ∧ lookupA st'.dict name = some (.handle hh) := by
  unfold resolveChain at h
  split at h
  · rename_i hh st1 heq
    simp only [Prod.mk.injEq, Except.ok.injEq] at h
    exact ⟨hh, h.1.symm, by rw [← h.2]; simp [setSlot, lookupA_setA_self]⟩
  · split at h
    · rename_i hh st2 heq2
      simp only [Prod.mk.injEq, Except.ok.injEq] at h
      exact ⟨hh, h.1.symm, by rw [← h.2]; simp [setSlot, lookupA_setA_self]⟩
    · split at h
      · rename_i hh st3 heq3
        simp only [Prod.mk.injEq, Except.ok.injEq] at h
        exact ⟨hh, h.1.symm, by rw [← h.2]; simp [setSlot, lookupA_setA_self]⟩
      · simp_all
    · simp_all
  · simp_all

/-- Whenever an attribute read succeeds with a handle, the state it
leaves behind stores exactly that handle under the key the read is
served from. -/
theorem pyGetAttr_ok_handle (db : Database) :
    ∀ (fuel : Nat) (st st' : DBState) (name : String) (hh : Handle),
      pyGetAttr db fuel st name = (.ok (.handle hh), st') →
      lookupA st'.dict (propKey name) = some (.handle hh) := by
  intro fuel
  induction fuel with
  | zero =>
      intro st st' name hh hacc
      simp [pyGetAttr] at hacc
  | succ fuel ih =>
      intro st st' name hh hacc
      rw [pyGetAttr] at hacc
      by_cases hp : name = "bind" ∨ name = "schema"
      · rw [if_pos hp] at hacc
        split at hacc
        · rename_i v st1 heq
          simp only [Prod.mk.injEq, Except.ok.injEq] at hacc
          have hkey : propKey name = "_" ++ name := by simp [propKey, hp]
          have hkey2 : propKey ("_" ++ name) = "_" ++ name := by
            rcases hp with h | h <;> subst h <;> decide
          rw [hkey]
          have := ih st st' ("_" ++ name) hh (by rw [heq, hacc.1, hacc.2])
          rwa [hkey2] at this
        · exact absurd hacc (by exact fun h => getattrFallback_no_ok _ _ _ _ _ h)
        · simp_all
      · rw [if_neg hp] at hacc
        have hkey : propKey name = name := by simp [propKey, hp]
        rw [hkey]
        split at hacc
        · obtain ⟨hh', hv, hl⟩ := resolveChain_ok _ _ _ _ _ _ hacc
          obtain rfl : hh = hh' := by injection hv
          exact hl
        · rename_i v hconstr hlk
          simp only [Prod.mk.injEq, Except.ok.injEq] at hacc
          obtain ⟨hv, hst⟩ := hacc
          subst hv
          subst hst
          exact hlk
        · split at hacc
          · simp_all
          · exact absurd hacc (by exact fun h => getattrFallback_no_ok _ _ _ _ _ h)

/-- A read served by a key that already stores a handle is a pure cache
hit: it returns that very handle object and leaves the state unchanged
(no reflection, no fresh class identity). -/
theorem pyGetAttr_cache_hit (db : Database) (fuel : Nat) (st : DBState) (name : String)
    (hh : Handle) (hl : lookupA st.dict (propKey name) = some (.handle hh)) :
    pyGetAttr db (fuel + 2) st name = (.ok (.handle hh), st) := by
  show pyGetAttr db (fuel + 1 + 1) st name = (.ok (.handle hh), st)
  by_cases hp : name = "bind" ∨ name = "schema"
  · have hkey : propKey name = "_" ++ name := by simp [propKey, hp]
    rw [hkey] at hl
    have hp2 : ¬("_" ++ name = "bind" ∨ "_" ++ name = "schema") := by
      rcases hp with h | h <;> subst h <;> decide
    have hinner : pyGetAttr db (fuel + 1) st ("_" ++ name) = (.ok (.handle hh), st) := by
      rw [pyGetAttr, if_neg hp2, hl]
    rw [pyGetAttr, if_pos hp, hinner]
  · have hkey : propKey name = name := by simp [propKey, hp]
    rw [hkey] at hl
    rw [pyGetAttr, if_neg hp, hl]

/-- C1 counterexample: in the catalog `{users}`, accessing `users` and
then `USERS` yields two resolved handles that are NOT object-identical
(distinct freshness identities 0 and 1), and the resolver has run twice
(the class-creation counter reaches 2) for the single distinct resolved
name `users` — each alias spelling is resolved and cached separately. -/
theorem getattribute_alias_not_identical :
    usersAccess1.1 = .ok (.handle ⟨0, "users", [("id", 0), ("ID", 0)], []⟩)
    ∧ usersAccess2.1 = .ok (.handle ⟨1, "users", [("id", 0), ("ID", 0)], []⟩)
    ∧ usersAccess1.1 ≠ usersAccess2.1
    ∧ usersAccess2.2.counter = 2 := by decide

/-- C1 (corrected): repeated facade accesses through the SAME alias
spelling return the identical cached handle object and invoke the
resolver at most once for that spelling (the second read is a pure
cache hit leaving the state unchanged); distinct case aliases, however,
are cached independently and each triggers its own resolution, so
handles obtained through different spellings need not be identical. -/
theorem getattribute_same_alias_cached (db : Database) (fuel fuel' : Nat)
    (st st' : DBState) (name : String) (hh : Handle)
    (hacc : pyGetAttr db fuel st name = (.ok (.handle hh), st')) :
    pyGetAttr db (fuel' + 2) st' name = (.ok (.handle hh), st') :=
  pyGetAttr_cache_hit db fuel' st' name hh (pyGetAttr_ok_handle db fuel st st' name hh hacc)

/-- Witness for C1 at the concrete `users` binding: re-reading `users`
returns the cached handle of identity 0 and leaves the state as is. -/
theorem getattribute_same_alias_cached_witness :
    pyGetAttr usersDB 2 usersAccess1.2 "users" =
      (.ok (.handle ⟨0, "users", [("id", 0), ("ID", 0)], []⟩), usersAccess1.2) :=
  getattribute_same_alias_cached usersDB 2 0 usersInit usersAccess1.2 "users"
    ⟨0, "users", [("id", 0), ("ID", 0)], []⟩ (by decide)

/-! ### Lemmas on whole-schema reflection -/

theorem reflectLoop_preserves_handle (ts : List DBTable) (st : DBState) (n : String)
    (h : ∃ hh, lookupA st.dict n = some (.handle hh)) :
    ∃ hh, lookupA (reflectLoop ts st).dict n = some (.handle hh) := by
  induction ts generalizing st with
  | nil => simpa [reflectLoop] using h
  | cons t rest ih =>
      by_cases hpk : t.hasPK
      · simp only [reflectLoop, hpk, if_true]
        apply ih
        obtain ⟨hh, hl⟩ := h
        simp only [lookupA_setA]
        split
        · exact ⟨_, rfl⟩
        · split
          · exact ⟨_, rfl⟩
          · split
            · exact ⟨_, rfl⟩
            · exact ⟨hh, hl⟩
      · simp only [reflectLoop, hpk, if_false]
        exact ih st h

theorem reflectLoop_mem_handle (ts : List DBTable) (st : DBState) (t : DBTable)
    (hmem : t ∈ ts) (hpk : t.hasPK = true) :
    ∃ hh, lookupA (reflectLoop ts st).dict t.name = some (.handle hh) := by
  induction ts generalizing st with
  | nil => cases hmem
  | cons t0 rest ih =>
      rcases List.mem_cons.mp hmem with rfl | hmem'
      · simp only [reflectLoop, hpk, if_true]
        apply reflectLoop_preserves_handle
        simp only [lookupA_setA]
        split
        · exact ⟨_, rfl⟩
        · split
          · exact ⟨_, rfl⟩
          · simp
      · by_cases hpk0 : t0.hasPK
        · simp only [reflectLoop, hpk0, if_true]
          exact ih _ hmem'
        · simp only [reflectLoop, hpk0, if_false]
          exact ih _ hmem'

/-- C7 (corrected): after `reflect()`, accessing any catalog table that
HAS a primary key (and whose name is not shadowed by the facade's own
`bind`/`schema` properties) returns a resolved handle as a pure cache
hit — the state is unchanged, so no second single-table reflection and
no fresh class creation happens. -/
theorem reflect_then_access_cache_hit (db : Database) (st : DBState) (t : DBTable) (fuel : Nat)
    (hmem : t ∈ db.tables) (hpk : t.hasPK = true)
    (hb : t.name ≠ "bind") (hs : t.name ≠ "schema") :
    ∃ hh, pyGetAttr db (fuel + 1) (DataBase.reflect db st) t.name =
      (.ok (.handle hh), DataBase.reflect db st) := by
  obtain ⟨hh, hl⟩ := reflectLoop_mem_handle db.tables
    { st with metadata := unionNames st.metadata (dbNames db) } t hmem hpk
  refine ⟨hh, ?_⟩
  have hp : ¬(t.name = "bind" ∨ t.name = "schema") := by tauto
  simp only [DataBase.reflect]
  rw [pyGetAttr, if_neg hp, hl]

/-- Witness for C7 at the concrete `users` binding after `reflect()`. -/
theorem reflect_then_access_cache_hit_witness :
    ∃ hh, pyGetAttr usersDB 1 (DataBase.reflect usersDB usersInit) "users" =
      (.ok (.handle hh), DataBase.reflect usersDB usersInit) :=
  reflect_then_access_cache_hit usersDB usersInit ⟨"users", ["id"], true⟩ 0
    (by decide) rfl (by decide) (by decide)

/-- C7 counterexample: `reflect()` does NOT materialize a slot for a
catalog table lacking a primary key (automap skips it), so a subsequent
access finds the slot still unresolved, triggers a fresh single-table
reflection (the class-creation counter advances) and fails with the
missing-primary-key `ValueError` instead of returning a resolved
handle. -/
theorem reflect_no_pk_not_materialized :
    lookupA nopkReflected.dict "nopk" = some .placeholder
    ∧ (pyGetAttr nopkDB 3 nopkReflected "nopk").1 =
        .error (.valueError (pkErrMsg "nopk" (reprlibRepr ["nopk"])))
    ∧ (pyGetAttr nopkDB 3 nopkReflected "nopk").2.counter = nopkReflected.counter + 1 := by
  decide

/-! ### The missing-primary-key error and its message -/

/-- The two error messages are never equal (they differ already at the
first character). -/
theorem pkErrMsg_ne_notRightMsg (a ra b rb : String) : pkErrMsg a ra ≠ notRightMsg b rb := by
  intro heq
  have hd : (pkErrMsg a ra).data.head? = (notRightMsg b rb).data.head? := by rw [heq]
  have e1 : "There must be a primary key in ".data
      = 'T' :: "here must be a primary key in ".data := rfl
  have e2 : "<".data = ['<'] := rfl
  simp only [pkErrMsg, notRightMsg, String.data_append, e1, e2, List.cons_append,
    List.head?_cons] at hd
  exact absurd hd (by decide)

theorem pyGetAttr_tables_hit (db : Database) (fuel : Nat) (st : DBState) (ts : List String)
    (h : lookupA st.dict "tables" = some (.tablesList ts)) :
    pyGetAttr db (fuel + 1) st "tables" = (.ok (.tablesList ts), st) := by
  rw [pyGetAttr, if_neg (by decide), h]

theorem reflect_table_no_pk (db : Database) (tf : DBState → Except PyError Value × DBState)
    (st st2 : DBState) (tn : String) (tbl : DBTable) (v : Value)
    (h1 : dbFind db tn = some tbl) (h2 : tbl.hasPK = false)
    (h3 : tf { st with metadata := addName st.metadata tn, counter := st.counter + 1 } =
      (.ok v, st2)) :
    reflect_table db tf st tn = (.error (.valueError (pkErrMsg tn (valueRepr v))), st2) := by
  rw [reflect_table, h1]
  simp [h2, h3]

theorem resolveChain_valueError (db : Database) (tf : DBState → Except PyError Value × DBState)
    (st st1 : DBState) (name m : String)
    (h : reflect_table db tf st name = (.error (.valueError m), st1)) :
    resolveChain db tf st name = (.error (.valueError m), st1) := by
  rw [resolveChain, h]

/-- C5 (confirmed): resolving a real table that reflects but lacks a
primary key fails with the missing-primary-key `ValueError` (the
embedding of `MissingPrimaryKey`), while a name that is no table at all
fails with `__getattr__`'s `AttributeError` (the embedding of
`TableNotFound`); the two failures differ both in exception type and in
message — the former's message announces the missing primary key, and
is provably distinct from the latter's for every table name and
catalog sample. -/
theorem reflect_missing_pk_distinct_error (db : Database) (st : DBState) (fuel : Nat)
    (t u : String) (tbl : DBTable) (ts : List String)
    (ht1 : lookupA st.dict t = some .placeholder)
    (ht2 : dbFind db t = some tbl) (ht3 : tbl.hasPK = false)
    (htbl : lookupA st.dict "tables" = some (.tablesList ts))
    (hbt : t ≠ "bind") (hst : t ≠ "schema")
    (hu1 : lookupA st.dict u = none) (hu2 : u ∉ classMethods)
    (hbu : u ≠ "bind") (hsu : u ≠ "schema") :
    (pyGetAttr db (fuel + 2) st t).1 =
      .error (.valueError (pkErrMsg t (reprlibRepr ts)))
    ∧ (pyGetAttr db (fuel + 2) st u).1 =
      .error (.attributeError (notRightMsg u (reprlibRepr ts)))
    ∧ pkErrMsg t (reprlibRepr ts) ≠ notRightMsg u (reprlibRepr ts) := by
  refine ⟨?_, ?_, pkErrMsg_ne_notRightMsg _ _ _ _⟩
  · have htf := pyGetAttr_tables_hit db fuel
      { st with metadata := addName st.metadata t, counter := st.counter + 1 } ts htbl
    have hrt := reflect_table_no_pk db (fun s => pyGetAttr db (fuel + 1) s "tables")
      st _ t tbl (.tablesList ts) ht2 ht3 htf
    have hrc := resolveChain_valueError db (fun s => pyGetAttr db (fuel + 1) s "tables")
      st _ t (pkErrMsg t (valueRepr (.tablesList ts))) hrt
    show (pyGetAttr db (fuel + 1 + 1) st t).1 = _
    rw [pyGetAttr, if_neg (by tauto : ¬(t = "bind" ∨ t = "schema")), ht1, hrc]
    simp [valueRepr]
  · have htf := pyGetAttr_tables_hit db fuel st ts htbl
    show (pyGetAttr db (fuel + 1 + 1) st u).1 = _
    rw [pyGetAttr, if_neg (by tauto : ¬(u = "bind" ∨ u = "schema")), hu1,
      if_neg (by simpa using hu2), getattrFallback, htf]
    simp [valueRepr]

/-- Witness for C5 at the concrete no-primary-key binding. -/
theorem reflect_missing_pk_distinct_error_witness :
    (pyGetAttr nopkDB 3 (DataBase.init nopkDB false none) "nopk").1 =
      .error (.valueError (pkErrMsg "nopk" (reprlibRepr ["nopk"])))
    ∧ (pyGetAttr nopkDB 3 (DataBase.init nopkDB false none) "ghost").1 =
      .error (.attributeError (notRightMsg "ghost" (reprlibRepr ["nopk"])))
    ∧ pkErrMsg "nopk" (reprlibRepr ["nopk"]) ≠ notRightMsg "ghost" (reprlibRepr ["nopk"]) :=
  reflect_missing_pk_distinct_error nopkDB (DataBase.init nopkDB false none) 1 "nopk" "ghost"
    ⟨"nopk", ["a"], false⟩ ["nopk"] (by decide) (by decide) rfl (by decide) (by decide)
    (by decide) (by decide) (by decide) (by decide) (by decide)

/-! ### Column-alias coherence of lazily resolved handles -/

theorem disjointAliases_ne (a b : String) (h : disjointAliases a b = true) :
    ∀ x ∈ aliasSet a, ∀ y ∈ aliasSet b, x ≠ y := by
  intro x hx y hy heq
  subst heq
  simp only [disjointAliases, List.all_eq_true, Bool.not_eq_true'] at h
  have := h x hx
  simp at this
  exact this hy

theorem aliasLoop_frame (todo : List String) (attrs : List (String × Nat)) (x : String)
    (hx : ∀ d ∈ todo, x ≠ pyUpper d ∧ x ≠ pyLower d) :
    lookupA (aliasLoop todo attrs) x = lookupA attrs x := by
  induction todo generalizing attrs with
  | nil => rfl
  | cons c rest ih =>
      rw [aliasLoop]
      cases hc : lookupA attrs c with
      | none => exact ih _ (fun d hd => hx d (List.mem_cons_of_mem _ hd))
      | some cid =>
          rw [ih _ (fun d hd => hx d (List.mem_cons_of_mem _ hd)),
            lookupA_setA_ne _ _ _ _ (Ne.symm (hx c (List.mem_cons_self _ _)).2),
            lookupA_setA_ne _ _ _ _ (Ne.symm (hx c (List.mem_cons_self _ _)).1)]

theorem initAttrsFrom_isSome (cols : List String) (c : String) (hc : c ∈ cols) :
    ∀ i, (lookupA (initAttrsFrom i cols) c).isSome := by
  induction cols with
  | nil => exact absurd hc (List.not_mem_nil c)
  | cons c0 rest ih =>
      intro i
      by_cases h : c0 = c
      · simp [initAttrsFrom, lookupA, h]
      · have hc' : c ∈ rest := by
          rcases List.mem_cons.mp hc with rfl | h'
          · exact absurd rfl h
          · exact h'
        simp [initAttrsFrom, lookupA, h, ih hc']

/-- The alias loop of `_reflect_table` makes the three spellings of
every column resolve to one and the same column-object identity,
provided the column names are pairwise alias-disjoint. -/
theorem aliasLoop_coherent :
    ∀ (todo : List String) (attrs : List (String × Nat)),
      colsOKb todo = true →
      (∀ c ∈ todo, (lookupA attrs c).isSome) →
      ∀ c ∈ todo, ∃ cid, lookupA (aliasLoop todo attrs) c = some cid
        ∧ lookupA (aliasLoop todo attrs) (pyUpper c) = some cid
        ∧ lookupA (aliasLoop todo attrs) (pyLower c) = some cid := by
  intro todo
  induction todo with
  | nil =>
      intro attrs _ _ c hc
      exact absurd hc (List.not_mem_nil c)
  | cons c0 rest ih =>
      intro attrs hok hsome c hc
      obtain ⟨hd, hrest⟩ : rest.all (disjointAliases c0) = true ∧ colsOKb rest = true := by
        simpa [colsOKb, Bool.and_eq_true] using hok
      obtain ⟨cid0, hcid0⟩ := Option.isSome_iff_exists.mp (hsome c0 (List.mem_cons_self _ _))
      rw [aliasLoop, hcid0]
      have hdisj : ∀ d ∈ rest, ∀ x ∈ aliasSet c0, ∀ y ∈ aliasSet d, x ≠ y := by
        intro d hd'
        exact disjointAliases_ne c0 d (List.all_eq_true.mp hd d hd')
      rcases List.mem_cons.mp hc with rfl | hcr
      · have hframe : ∀ x ∈ aliasSet c, lookupA
            (aliasLoop rest (setA (setA attrs (pyUpper c) cid0) (pyLower c) cid0)) x =
            lookupA (setA (setA attrs (pyUpper c) cid0) (pyLower c) cid0) x := by
          intro x hx
          apply aliasLoop_frame
          intro d hd'
          exact ⟨hdisj d hd' x hx (pyUpper d) (by simp [aliasSet]),
                 hdisj d hd' x hx (pyLower d) (by simp [aliasSet])⟩
        refine ⟨cid0, ?_, ?_, ?_⟩
        · rw [hframe c (by simp [aliasSet]), lookupA_setA, lookupA_setA]
          split
          · rfl
          · split
            · rfl
            · exact hcid0
        · rw [hframe (pyUpper c) (by simp [aliasSet]), lookupA_setA, lookupA_setA]
          split
          · rfl
          · simp
        · rw [hframe (pyLower c) (by simp [aliasSet]), lookupA_setA]
          simp
      · apply ih (setA (setA attrs (pyUpper c0) cid0) (pyLower c0) cid0) hrest ?_ c hcr
        intro d hd'
        have h1 : pyLower c0 ≠ d :=
          hdisj d hd' (pyLower c0) (by simp [aliasSet]) d (by simp [aliasSet])
        have h2 : pyUpper c0 ≠ d :=
          hdisj d hd' (pyUpper c0) (by simp [aliasSet]) d (by simp [aliasSet])
        rw [lookupA_setA_ne _ _ _ _ h1, lookupA_setA_ne _ _ _ _ h2]
        exact hsome d (List.mem_cons_of_mem _ hd')

/-- C6 (corrected): on a handle produced by LAZY single-table
resolution (`_reflect_table`), the three accessor spellings of every
column — as-is, upper-cased, lower-cased — resolve to the identical
underlying column object (same identity), so a mutation through any
one alias is read back through any other; this needs the realistic
proviso that no two column names collide up to case.  Handles produced
by whole-schema `reflect()` do NOT carry the case aliases (see the
counterexample). -/
theorem lazy_handle_column_alias_coherence (hid : Nat) (t : DBTable) (c : String)
    (hok : colsOKb t.columns = true) (hc : c ∈ t.columns) :
    ∃ cid, lookupA (Handle.mkLazy hid t).attrs c = some cid
      ∧ lookupA (Handle.mkLazy hid t).attrs (pyUpper c) = some cid
      ∧ lookupA (Handle.mkLazy hid t).attrs (pyLower c) = some cid
      ∧ ∀ (v : String), ∀ a ∈ aliasSet c, ∀ b ∈ aliasSet c,
          ∃ h1, (Handle.mkLazy hid t).setColAttr a v = .ok h1
            ∧ h1.getColAttr b = .ok (some v) := by
  obtain ⟨cid, h1, h2, h3⟩ := aliasLoop_coherent t.columns (initAttrs t.columns) hok
    (fun d hd => initAttrsFrom_isSome t.columns d hd 0) c hc
  have hlook : ∀ a ∈ aliasSet c, lookupA (Handle.mkLazy hid t).attrs a = some cid := by
    intro a ha
    simp only [aliasSet, List.mem_cons, List.not_mem_nil, or_false] at ha
    rcases ha with rfl | rfl | rfl
    · exact h1
    · exact h2
    · exact h3
  refine ⟨cid, h1, h2, h3, ?_⟩
  intro v a ha b hb
  refine ⟨{ Handle.mkLazy hid t with props := setA (Handle.mkLazy hid t).props cid v }, ?_, ?_⟩
  · rw [Handle.setColAttr, hlook a ha]
  · rw [Handle.getColAttr]
    have hb' : lookupA ({ Handle.mkLazy hid t with
        props := setA (Handle.mkLazy hid t).props cid v } : Handle).attrs b = some cid :=
      hlook b hb
    rw [hb']
    simp [lookupA_setA_self]

/-- Witness for C6 on the two-column table `users(id, Name)` through
the mixed-case column `Name`. -/
theorem lazy_handle_column_alias_coherence_witness :
    ∃ cid, lookupA (Handle.mkLazy 0 ⟨"users", ["id", "Name"], true⟩).attrs "Name" = some cid
      ∧ lookupA (Handle.mkLazy 0 ⟨"users", ["id", "Name"], true⟩).attrs (pyUpper "Name") = some cid
      ∧ lookupA (Handle.mkLazy 0 ⟨"users", ["id", "Name"], true⟩).attrs (pyLower "Name") = some cid
      ∧ ∀ (v : String), ∀ a ∈ aliasSet "Name", ∀ b ∈ aliasSet "Name",
          ∃ h1, (Handle.mkLazy 0 ⟨"users", ["id", "Name"], true⟩).setColAttr a v = .ok h1
            ∧ h1.getColAttr b = .ok (some v) :=
  lazy_handle_column_alias_coherence 0 ⟨"users", ["id", "Name"], true⟩ "Name"
    (by decide) (by decide)

/-- C6 counterexample: the handle a whole-schema `reflect()` stores for
`users(id)` carries only the as-is column accessor — `pyUpper "id" = "ID"`
is not registered, so the upper-case accessor raises `AttributeError`
instead of denoting the same column object, refuting the claim's
"whether produced by lazy single-table resolution or by whole-schema
reflect()". -/
theorem reflect_handle_missing_column_alias :
    (pyGetAttr usersDB 1 (DataBase.reflect usersDB usersInit) "users").1 =
      .ok (.handle ⟨0, "users", [("id", 0)], []⟩)
    ∧ pyUpper "id" = "ID"
    ∧ lookupA (Handle.mk 0 "users" [("id", 0)] []).attrs "id" = some 0
    ∧ lookupA (Handle.mk 0 "users" [("id", 0)] []).attrs "ID" = none
    ∧ Handle.getColAttr ⟨0, "users", [("id", 0)], []⟩ "ID" =
        .error (.attributeError "type object users has no attribute ID") := by
  decide

/-- C8 (corrected): at construction, the literal schema value `"None"`
(capital N — the exact literal the source compares against) is treated
as passing no schema: the resulting binding state is identical, for a
bound and for an unbound constructor call alike. -/
theorem init_schema_None_is_no_schema (db : Database) (b : Bool) :
    DataBase.init db b (some "None") = DataBase.init db b none := by
  cases b <;> simp [DataBase.init]

/-- C8 counterexample: the lower-case literal `"none"` is NOT treated
as no-schema — the constructed binding stores `"none"` as its schema
and differs from the binding constructed with an absent schema. -/
theorem init_schema_lowercase_none :
    DataBase.init usersDB false (some "none") ≠ DataBase.init usersDB false none
    ∧ lookupA (DataBase.init usersDB false (some "none")).dict "_schema" =
        some (.schemaVal (some "none"))
    ∧ lookupA (DataBase.init usersDB false none).dict "_schema" = some (.schemaVal none) := by
  decide

/-- C9 (code_bug): constructing with a null connection is indeed a
no-op (the instance dictionary stays empty), but accessing ANY
attribute that is not a plain class method on such an unbound instance
does NOT produce an `AttributeError`: `__getattr__`'s message evaluates
`self.tables`, which is unset, which re-enters `__getattr__`, and the
mutual recursion exhausts the interpreter stack — for every recursion
budget the outcome is `RecursionError`, never the descriptive
`AttributeError` the spec promises. -/
theorem unbound_init_access_recursion (db : Database) (schema : Option String) :
    DataBase.init db true schema = ⟨[], [], 0⟩
    ∧ ∀ (fuel : Nat) (name : String), name ∉ classMethods →
        pyGetAttr db fuel ⟨[], [], 0⟩ name = (.error .recursionError, ⟨[], [], 0⟩) := by
  constructor
  · simp [DataBase.init]
  · intro fuel
    induction fuel with
    | zero =>
        intro name _
        rw [pyGetAttr]
    | succ fuel ih =>
        intro name hnm
        rw [pyGetAttr]
        by_cases hp : name = "bind" ∨ name = "schema"
        · have hinner := ih ("_" ++ name) (by rcases hp with h | h <;> subst h <;> decide)
          rw [if_pos hp, hinner]
        · have htab := ih "tables" (by decide)
          rw [if_neg hp,
            show lookupA (DBState.mk [] [] 0).dict name = none from rfl,
            if_neg (by simpa using hnm), getattrFallback, htab]

/-- Witness for C9: on an unbound instance, even a generous recursion
budget of 100 ends in `RecursionError` for the table access `users`. -/
theorem unbound_init_access_recursion_witness :
    DataBase.init usersDB true none = ⟨[], [], 0⟩
    ∧ pyGetAttr usersDB 100 ⟨[], [], 0⟩ "users" = (.error .recursionError, ⟨[], [], 0⟩) :=
  ⟨(unbound_init_access_recursion usersDB none).1,
   (unbound_init_access_recursion usersDB none).2 100 "users" (by decide)⟩
